import Mathlib

-- Verification of the tempestremap sources:
--   src/GenerateRLLMesh.cpp, src/GenerateTestData.cpp,
--   src/GenerateOverlapMeshExe_v1.cpp
-- Each definition is a shallow embedding of the named source fragment;
-- definitions whose doc comment starts with "Modelled from the spec:" stand
-- for code of the repository that is not among the three sources (the
-- overlap engine behind GenerateOverlapMesh_v1 and the GridElements
-- declarations) and follow the specification text instead.

namespace TempestRemap

-- ===========================================================================
-- Edge types (GenerateRLLMesh.cpp lines 29, 346-349, 369-372, 393-396)
-- ===========================================================================

/-- Edge type tags of the mesh data model (spec section 3: Type is GreatCircle
or ConstantLatitude; the run-time field Edge::type of GridElements.h). -/
inductive EdgeType where
  | greatCircle
  | constantLatitude
  deriving DecidableEq

/-- Embedding of the preprocessor state of GenerateRLLMesh.cpp line 29:
the macro ONLY_GREAT_CIRCLES is defined in the source, so this constant is
true. -/
def ONLY_GREAT_CIRCLES : Bool := true

/-- Modelled from the spec: the default value of the run-time field
Edge::type given by the Edge constructor of GridElements.h (not under src/);
spec section 3 lists GreatCircle first and the RLL generator only ever
overrides edges 1 and 3, so the default is the great-circle tag. -/
def defaultEdgeType : EdgeType := EdgeType.greatCircle

/-- Edge types of one quadrilateral face built by GenerateRLLMesh.cpp.
Face(4) creates four edges carrying the default type; the conditional
blocks at lines 346-349, 369-372 and 393-396 set the types of edges 1 and 3
to Type_ConstantLatitude, but those blocks are compiled only when the
ONLY_GREAT_CIRCLES macro of line 29 is NOT defined.  The parameter
onlyGreatCircles reflects the preprocessor condition. -/
def rllFaceEdgeType (onlyGreatCircles : Bool) (k : Fin 4) : EdgeType :=
  if onlyGreatCircles then defaultEdgeType
  else if k = 1 ∨ k = 3 then EdgeType.constantLatitude
  else defaultEdgeType

-- ===========================================================================
-- Edge-array lengths and the bounds-setting reads
-- (GenerateRLLMesh.cpp lines 248, 258, 284-288, parametric path)
-- ===========================================================================

/-- Length of dLonEdge after dLonEdge.Initialize(nLongitudes+1) at
GenerateRLLMesh.cpp line 248. -/
def lonEdgeRows (nLongitudes : ℕ) : ℕ := nLongitudes + 1

/-- Length of dLatEdge after dLatEdge.Initialize(nLatitudes+1) at
GenerateRLLMesh.cpp line 258. -/
def latEdgeRows (nLatitudes : ℕ) : ℕ := nLatitudes + 1

/-- Index used at GenerateRLLMesh.cpp line 288: the read
dLatEdge[dLonEdge.GetRows()-1] indexes the LATITUDE edge array with the
length of the LONGITUDE edge array minus one. -/
def setBoundsLatReadIndex (nLongitudes : ℕ) : ℕ := lonEdgeRows nLongitudes - 1

/-- Whether the four array reads of the bounds-setting step at
GenerateRLLMesh.cpp lines 285-288 (dLatEdge[0], dLatEdge[GetRows()-1],
dLonEdge[0], dLatEdge[dLonEdge.GetRows()-1]) are all within the lengths of
the arrays they index, for the parametric path. -/
def setBoundsReadsInBounds (nLongitudes nLatitudes : ℕ) : Bool :=
  decide (0 < latEdgeRows nLatitudes) &&
  decide (latEdgeRows nLatitudes - 1 < latEdgeRows nLatitudes) &&
  decide (0 < lonEdgeRows nLongitudes) &&
  decide (setBoundsLatReadIndex nLongitudes < latEdgeRows nLatitudes)

-- ===========================================================================
-- Face loops of the RLL mesh generator (GenerateRLLMesh.cpp lines 296-400)
-- The boolean flags fWrapLongitudes, fIncludeSouthPole and fIncludeNorthPole
-- abstract the floating-point comparisons of lines 297-302 (for the default
-- global extent all three are true).  The fFlipLatLon reordering of lines
-- 403-411 only permutes the face list and is not modelled.
-- ===========================================================================

/-- Number of longitude nodes, GenerateRLLMesh.cpp lines 310-314. -/
def nLongitudeNodes (nLongitudes : ℕ) (fWrapLongitudes : Bool) : ℕ :=
  if fWrapLongitudes then nLongitudes else nLongitudes + 1

/-- First interior latitude index, GenerateRLLMesh.cpp line 307 (equal to
iSouthPoleOffset of line 304). -/
def iInteriorLatBegin (fIncludeSouthPole : Bool) : ℕ :=
  if fIncludeSouthPole then 1 else 0

/-- Last interior latitude index bound, GenerateRLLMesh.cpp line 308. -/
def iInteriorLatEnd (nLatitudes : ℕ) (fIncludeNorthPole : Bool) : ℕ :=
  if fIncludeNorthPole then nLatitudes - 1 else nLatitudes

/-- Number of nodes pushed by the node-generation loops of
GenerateRLLMesh.cpp lines 316-335: an optional south pole node, one node per
(latitude row, longitude) pair, and an optional north pole node. -/
def rllNodeCount (nLongitudes nLatitudes : ℕ) (wrap sp np : Bool) : ℕ :=
  (if sp then 1 else 0)
    + (iInteriorLatEnd nLatitudes np + 1 - iInteriorLatBegin sp)
        * nLongitudeNodes nLongitudes wrap
    + (if np then 1 else 0)

/-- Node-index loop of one south polar face, GenerateRLLMesh.cpp lines
340-344: nodes 0 and 3 are both the south pole node (index 0). -/
def southPolarFace (nLN i : ℕ) : List ℕ :=
  [0, (i + 1) % nLN + 1, i + 1, 0]

/-- Node-index loop of one interior face, GenerateRLLMesh.cpp lines
363-367. -/
def interiorFace (nLN iThisLatNodeIx iNextLatNodeIx i : ℕ) : List ℕ :=
  [iThisLatNodeIx + (i + 1) % nLN, iNextLatNodeIx + (i + 1) % nLN,
    iNextLatNodeIx + i, iThisLatNodeIx + i]

/-- Node-index loop of one north polar face, GenerateRLLMesh.cpp lines
387-391: nodes 0 and 3 are both the north pole node. -/
def northPolarFace (nLN iThisLatNodeIx iNorthPolarNodeIx i : ℕ) : List ℕ :=
  [iNorthPolarNodeIx, iThisLatNodeIx + i, iThisLatNodeIx + (i + 1) % nLN,
    iNorthPolarNodeIx]

/-- South polar face loop, GenerateRLLMesh.cpp lines 338-353. -/
def southPolarFaces (nLN nLongitudes : ℕ) (sp : Bool) : List (List ℕ) :=
  if sp then (List.range nLongitudes).map (fun i => southPolarFace nLN i)
  else []

/-- Interior face loops, GenerateRLLMesh.cpp lines 356-376; jx ranges over
the latitude rows and i over the longitudes. -/
def interiorFaces (nLN iSouthPoleOffset nRows nLongitudes : ℕ) :
    List (List ℕ) :=
  ((List.range nRows).map (fun jx =>
    (List.range nLongitudes).map (fun i =>
      interiorFace nLN (jx * nLN + iSouthPoleOffset)
        ((jx + 1) * nLN + iSouthPoleOffset) i))).flatten

/-- North polar face loop, GenerateRLLMesh.cpp lines 379-400. -/
def northPolarFaces (nLN iThisLatNodeIx iNorthPolarNodeIx nLongitudes : ℕ)
    (np : Bool) : List (List ℕ) :=
  if np then
    (List.range nLongitudes).map
      (fun i => northPolarFace nLN iThisLatNodeIx iNorthPolarNodeIx i)
  else []

/-- All face node-index loops pushed onto mesh.faces by GenerateRLLMesh.cpp
lines 337-400, in order. -/
def rllFaces (nLongitudes nLatitudes : ℕ) (wrap sp np : Bool) :
    List (List ℕ) :=
  let nLN := nLongitudeNodes nLongitudes wrap
  let off := if sp then 1 else 0
  let b := iInteriorLatBegin sp
  let e := iInteriorLatEnd nLatitudes np
  let jxNorth := nLatitudes - b - 1
  southPolarFaces nLN nLongitudes sp
    ++ interiorFaces nLN off (e - b) nLongitudes
    ++ northPolarFaces nLN (jxNorth * nLN + off)
        (rllNodeCount nLongitudes nLatitudes wrap sp np - 1) nLongitudes np

/-- Whether every consecutive pair of entries of the loop, including the
implicit closure from the last entry back to the first, has distinct node
indices. -/
def consecPairsDistinct (f : List ℕ) : Bool :=
  (List.range f.length).all
    (fun k => decide (f.getD k 0 ≠ f.getD ((k + 1) % f.length) 0))

/-- Whether every consecutive pair of entries of the loop, NOT counting the
implicit closure from the last entry back to the first, has distinct node
indices. -/
def nonClosingDistinct (f : List ℕ) : Bool :=
  (List.range (f.length - 1)).all
    (fun k => decide (f.getD k 0 ≠ f.getD (k + 1) 0))

/-- The well-formedness property claimed for face loops: at least three
entries, and all consecutive pairs (closure included) distinct. -/
def faceLoopsWellFormed (mesh : List (List ℕ)) : Prop :=
  ∀ f ∈ mesh, 3 ≤ f.length ∧ consecPairsDistinct f = true

-- ===========================================================================
-- Nodes of the RLL mesh generator (GenerateRLLMesh.cpp lines 316-335),
-- modelled over the mathematical reals.
-- ===========================================================================

/-- A mesh node: a vector in 3-space (spec section 3). -/
structure MeshNode where
  x : ℝ
  y : ℝ
  z : ℝ

/-- Interior node built at GenerateRLLMesh.cpp lines 323-330 from a
latitude dPhi and a longitude dLambda. -/
noncomputable def rllInteriorNode (dPhi dLambda : ℝ) : MeshNode where
  x := Real.cos dPhi * Real.cos dLambda
  y := Real.cos dPhi * Real.sin dLambda
  z := Real.sin dPhi

/-- South pole node pushed at GenerateRLLMesh.cpp line 318. -/
noncomputable def southPoleNode : MeshNode where
  x := 0
  y := 0
  z := -1

/-- North pole node pushed at GenerateRLLMesh.cpp line 334. -/
noncomputable def northPoleNode : MeshNode where
  x := 0
  y := 0
  z := 1

/-- Squared Euclidean magnitude of a node. -/
noncomputable def nodeMagnitudeSq (nd : MeshNode) : ℝ :=
  nd.x * nd.x + nd.y * nd.y + nd.z * nd.z

-- ===========================================================================
-- Exit codes (GenerateRLLMesh.cpp lines 442-450, GenerateTestData.cpp lines
-- 670-678, GenerateOverlapMeshExe_v1.cpp lines 56-63)
-- ===========================================================================

/-- The three ways a run of one of the drivers can end: normal completion, a
raised Exception caught by the catch(Exception) handler, or any other thrown
object caught by the catch-all handler. -/
inductive RunOutcome where
  | success
  | domainError
  | unexpected
  deriving DecidableEq

/-- Exit code of GenerateRLLMesh.cpp: return 0 at line 442, return -1 in the
catch(Exception) handler at lines 444-446, return -2 in the catch-all
handler at lines 448-449. -/
def generateRLLMeshExitCode : RunOutcome → Int := fun o =>
  match o with
  | RunOutcome.success => 0
  | RunOutcome.domainError => -1
  | RunOutcome.unexpected => -2

/-- Exit code of GenerateTestData.cpp: return 0 at line 670, return -1 in
the catch(Exception) handler at lines 672-674, return -2 in the catch-all
handler at lines 676-677. -/
def generateTestDataExitCode : RunOutcome → Int := fun o =>
  match o with
  | RunOutcome.success => 0
  | RunOutcome.domainError => -1
  | RunOutcome.unexpected => -2

/-- Modelled from the spec: the return value of GenerateOverlapMesh_v1
(TempestRemapAPI, not under src/), the routine called at
GenerateOverlapMeshExe_v1.cpp line 58.  Spec section 6 requires exit code 0
on success and distinct non-zero codes distinguishing a caught domain error
from an unexpected failure; the codes mirror the convention (-1 and -2) of
the other two drivers. -/
def generateOverlapMesh_v1ExitCode : RunOutcome → Int := fun o =>
  match o with
  | RunOutcome.success => 0
  | RunOutcome.domainError => -1
  | RunOutcome.unexpected => -2

/-- Exit code of GenerateOverlapMeshExe_v1.cpp lines 58-63: the driver
forwards the return value of GenerateOverlapMesh_v1 (exit(err) when err is
non-zero, return 0 otherwise). -/
def generateOverlapMeshExeExitCode (o : RunOutcome) : Int :=
  let err := generateOverlapMesh_v1ExitCode o
  if err ≠ 0 then err else 0

-- ===========================================================================
-- The --method option (GenerateOverlapMeshExe_v1.cpp line 48)
-- ===========================================================================

/-- The overlap method selector (spec sections 4.1 and 6: enumerated values
fuzzy, exact, mixed). -/
inductive OverlapMethod where
  | fuzzy
  | exact
  | mixed
  deriving DecidableEq

/-- Default value of the --method option, GenerateOverlapMeshExe_v1.cpp
line 48: CommandLineStringD(strMethod, "method", "fuzzy", ...). -/
def strMethodDefault : String := "fuzzy"

/-- Error message produced for a method string outside the enumeration. -/
def methodErrorMsg : String := "Invalid \"method\" value"

/-- Modelled from the spec: validation of the --method string inside
GenerateOverlapMesh_v1 (not under src/).  Spec section 6 gives the method
selector the enumerated values fuzzy, exact and mixed, mapping to the
tolerance policy of section 4.1; any other value is a domain error. -/
def parseOverlapMethod (strMethod : String) : Except String OverlapMethod :=
  if strMethod = "fuzzy" then Except.ok OverlapMethod.fuzzy
  else if strMethod = "exact" then Except.ok OverlapMethod.exact
  else if strMethod = "mixed" then Except.ok OverlapMethod.mixed
  else Except.error methodErrorMsg

-- ===========================================================================
-- Test-function selection (GenerateTestData.cpp lines 250-261)
-- ===========================================================================

/-- The closed set of test functions of GenerateTestData.cpp: the low-order
harmonic (TestFunctionY2b2), the high-frequency harmonic
(TestFunctionY16b32), the stationary vortex (TestFunctionVortex) and the
constant function 1 (TestFunction1). -/
inductive TestKind where
  | y2b2
  | y16b32
  | vortex
  | one
  deriving DecidableEq

/-- Error message of GenerateTestData.cpp line 260. -/
def testIndexErrorMsg : String := "Test index out of range; expected [1,2,3]"

/-- Test-function dispatch of GenerateTestData.cpp lines 250-261. -/
def selectTestFunction (iTestData : Int) : Except String TestKind :=
  if iTestData = 1 then Except.ok TestKind.y2b2
  else if iTestData = 2 then Except.ok TestKind.y16b32
  else if iTestData = 3 then Except.ok TestKind.vortex
  else if iTestData = 4 then Except.ok TestKind.one
  else Except.error testIndexErrorMsg

-- ===========================================================================
-- The stationary vortex test function (GenerateTestData.cpp lines 116-174)
-- ===========================================================================

/-- Two-argument arctangent, the atan2 of GenerateTestData.cpp line 139,
expressed through the complex argument. -/
noncomputable def atan2 (y x : ℝ) : ℝ := Complex.arg ⟨x, y⟩

/-- Rotated longitude and latitude of a point on the sphere with pole at
(dLonC, dLatC), GenerateTestData.cpp lines 123-144. -/
noncomputable def rotatedSphereCoord (dLonC dLatC dLonT dLatT : ℝ) :
    ℝ × ℝ :=
  let dSinC := Real.sin dLatC
  let dCosC := Real.cos dLatC
  let dCosT := Real.cos dLatT
  let dSinT := Real.sin dLatT
  let dTrm := dCosT * Real.cos (dLonT - dLonC)
  let dX := dSinC * dTrm - dCosC * dSinT
  let dY := dCosT * Real.sin (dLonT - dLonC)
  let dZ := dSinC * dSinT + dCosC * dTrm
  let dLonR := atan2 dY dX
  ((if dLonR < 0 then dLonR + 2 * Real.pi else dLonR), Real.arcsin dZ)

/-- Division that is undefined on a zero divisor; a division by zero in the
source is modelled as the absent value. -/
noncomputable def safeDiv (a b : ℝ) : Option ℝ :=
  if b = 0 then none else some (a / b)

/-- Angular velocity of the vortex, GenerateTestData.cpp lines 165-170:
dOmega is 0 when dRho == 0 and dVt / dRho otherwise. -/
noncomputable def vortexOmega (dVt dRho : ℝ) : Option ℝ :=
  if dRho = 0 then some 0 else safeDiv dVt dRho

/-- Evaluation of TestFunctionVortex, GenerateTestData.cpp lines 149-173,
with the division modelled through vortexOmega/safeDiv. -/
noncomputable def testFunctionVortex (dLon dLat : ℝ) : Option ℝ :=
  let dLon0 : ℝ := 0.0
  let dLat0 : ℝ := 0.6
  let dR0 : ℝ := 3.0
  let dD : ℝ := 5.0
  let dT : ℝ := 6.0
  let rot := rotatedSphereCoord dLon0 dLat0 dLon dLat
  let dRho := dR0 * Real.cos rot.2
  let dVt := 3.0 * Real.sqrt 3.0 / 2.0 / Real.cosh dRho / Real.cosh dRho
    * Real.tanh dRho
  Option.map
    (fun dOmega => 1.0 - Real.tanh (dRho / dD * Real.sin (rot.1 - dOmega * dT)))
    (vortexOmega dVt dRho)

-- ===========================================================================
-- Overlap-mesh model (modelled from the spec; the overlap engine behind
-- GenerateOverlapMesh_v1 is not under src/).  Sphere points are abstracted
-- as a finite type; a face is a finite set of points; the area of a face is
-- the sum of an additive weight over its points; a mesh covering the sphere
-- is a family of faces that are pairwise disjoint and jointly exhaustive.
-- ===========================================================================

/-- Modelled from the spec: the spherical area of a face, abstracted as the
sum of an additive point weight (spec section 4.1 FaceArea: the area of a
face equals the sum of areas of any exact partition of that face). -/
def faceArea {α : Type} (w : α → ℚ) (f : Finset α) : ℚ := ∑ x ∈ f, w x

/-- Modelled from the spec: the intersection polygon of source face p.1 and
target face p.2 (spec section 1: faces of the overlap mesh are the exact
geometric intersections of source-face/target-face pairs). -/
def overlapPoly {α : Type} [DecidableEq α] {n m : ℕ}
    (A : Fin n → Finset α) (B : Fin m → Finset α) (p : Fin n × Fin m) :
    Finset α :=
  A p.1 ∩ B p.2

/-- Modelled from the spec: the provenance pairs of the OverlapFaces the
assembler emits, one per source/target pair with a non-empty intersection
(spec section 4.4: every non-degenerate clipper result is appended with
provenance (source index, target index)). -/
def overlapFaces {α : Type} [DecidableEq α] [Fintype α] {n m : ℕ}
    (A : Fin n → Finset α) (B : Fin m → Finset α) :
    Finset (Fin n × Fin m) :=
  Finset.univ.filter (fun p => (overlapPoly A B p).Nonempty)

/-- Modelled from the spec: a valid input mesh covers the unit sphere (spec
section 1) with faces that do not overlap: the faces are pairwise disjoint
and their union is the whole sphere. -/
def IsMeshCover {α : Type} [DecidableEq α] [Fintype α] {n : ℕ}
    (M : Fin n → Finset α) : Prop :=
  (∀ i j, i ≠ j → M i ∩ M j = ∅) ∧ Finset.univ.biUnion M = Finset.univ

/-- Concrete point weight for the witness: both atoms of a two-point sphere
weigh 1. -/
def sampleWeight : Fin 2 → ℚ := fun _ => 1

/-- Concrete source mesh for the witness: one face covering the whole
two-point sphere. -/
def sampleSrcMesh : Fin 1 → Finset (Fin 2) := fun _ => Finset.univ

/-- Concrete target mesh for the witness: two singleton faces. -/
def sampleTgtMesh : Fin 2 → Finset (Fin 2) := fun j => {j}

-- ===========================================================================
-- Helper lemmas
-- ===========================================================================

/-- Helper: the successor modulo n differs from the argument when 2 ≤ n and
the argument is below n. -/
theorem succ_mod_ne (n i : ℕ) (hn : 2 ≤ n) (hi : i < n) : (i + 1) % n ≠ i := by
  rcases Nat.lt_or_ge (i + 1) n with h | h
  · rw [Nat.mod_eq_of_lt h]
    omega
  · have he : i + 1 = n := by omega
    rw [he, Nat.mod_self]
    omega

/-- Helper: summing the areas of the intersections of a fixed face with all
faces of a covering mesh recovers the area of the fixed face. -/
theorem sum_faceArea_inter {α : Type} [DecidableEq α] [Fintype α] {m : ℕ}
    (w : α → ℚ) (B : Fin m → Finset α) (hB : IsMeshCover B) (S : Finset α) :
    ∑ j ∈ Finset.univ, faceArea w (S ∩ B j) = faceArea w S := by
  have hdisj : Set.PairwiseDisjoint
      ((Finset.univ : Finset (Fin m)) : Set (Fin m)) (fun j => S ∩ B j) := by
    intro a _ b _ hab
    simp only [Function.onFun]
    refine Finset.disjoint_left.mpr ?_
    intro x hxa hxb
    have hx : x ∈ B a ∩ B b :=
      Finset.mem_inter.mpr ⟨(Finset.mem_inter.mp hxa).2, (Finset.mem_inter.mp hxb).2⟩
    rw [hB.1 a b hab] at hx
    exact absurd hx (Finset.not_mem_empty x)
  have hcov : Finset.univ.biUnion (fun j => S ∩ B j) = S := by
    ext x
    simp only [Finset.mem_biUnion, Finset.mem_inter, Finset.mem_univ, true_and]
    constructor
    · rintro ⟨j, hxS, _⟩
      exact hxS
    · intro hxS
      have hx : x ∈ Finset.univ.biUnion B := by
        rw [hB.2]
        exact Finset.mem_univ x
      rw [Finset.mem_biUnion] at hx
      obtain ⟨j, _, hj⟩ := hx
      exact ⟨j, hxS, hj⟩
  calc ∑ j ∈ Finset.univ, faceArea w (S ∩ B j)
      = ∑ x ∈ Finset.univ.biUnion (fun j => S ∩ B j), w x :=
        (Finset.sum_biUnion hdisj).symm
    _ = faceArea w S := by rw [hcov]; rfl

/-- Helper: the sum of the areas of the OverlapFaces with source provenance
i equals the sum over all target faces of the intersection areas (empty
intersections contribute zero area). -/
theorem sum_overlap_src {α : Type} [DecidableEq α] [Fintype α] {n m : ℕ}
    (w : α → ℚ) (A : Fin n → Finset α) (B : Fin m → Finset α) (i : Fin n) :
    ∑ p ∈ (overlapFaces A B).filter (fun p => p.1 = i),
        faceArea w (overlapPoly A B p)
      = ∑ j ∈ Finset.univ, faceArea w (A i ∩ B j) := by
  have hstep1 : (overlapFaces A B).filter (fun p => p.1 = i)
      = (Finset.univ.filter (fun p : Fin n × Fin m => p.1 = i)).filter
          (fun p => (overlapPoly A B p).Nonempty) := by
    rw [overlapFaces]
    exact Finset.filter_comm _ _ _
  have hdrop : ∀ p ∈ Finset.univ.filter (fun p : Fin n × Fin m => p.1 = i),
      faceArea w (overlapPoly A B p) ≠ 0 → (overlapPoly A B p).Nonempty := by
    intro p _ hfne
    rcases Finset.eq_empty_or_nonempty (overlapPoly A B p) with he | hne2
    · exfalso
      apply hfne
      rw [he]
      simp [faceArea]
    · exact hne2
  have hprod : Finset.univ.filter (fun p : Fin n × Fin m => p.1 = i)
      = ({i} : Finset (Fin n)) ×ˢ (Finset.univ : Finset (Fin m)) := by
    ext p
    obtain ⟨a, b⟩ := p
    simp [Finset.mem_filter, Finset.mem_product, eq_comm]
  rw [hstep1, Finset.sum_filter_of_ne hdrop, hprod, Finset.sum_product,
    Finset.sum_singleton]
  rfl

/-- Helper: the sum of the areas of the OverlapFaces with target provenance
j equals the sum over all source faces of the intersection areas. -/
theorem sum_overlap_tgt {α : Type} [DecidableEq α] [Fintype α] {n m : ℕ}
    (w : α → ℚ) (A : Fin n → Finset α) (B : Fin m → Finset α) (j : Fin m) :
    ∑ p ∈ (overlapFaces A B).filter (fun p => p.2 = j),
        faceArea w (overlapPoly A B p)
      = ∑ i ∈ Finset.univ, faceArea w (A i ∩ B j) := by
  have hstep1 : (overlapFaces A B).filter (fun p => p.2 = j)
      = (Finset.univ.filter (fun p : Fin n × Fin m => p.2 = j)).filter
          (fun p => (overlapPoly A B p).Nonempty) := by
    rw [overlapFaces]
    exact Finset.filter_comm _ _ _
  have hdrop : ∀ p ∈ Finset.univ.filter (fun p : Fin n × Fin m => p.2 = j),
      faceArea w (overlapPoly A B p) ≠ 0 → (overlapPoly A B p).Nonempty := by
    intro p _ hfne
    rcases Finset.eq_empty_or_nonempty (overlapPoly A B p) with he | hne2
    · exfalso
      apply hfne
      rw [he]
      simp [faceArea]
    · exact hne2
  have hprod : Finset.univ.filter (fun p : Fin n × Fin m => p.2 = j)
      = (Finset.univ : Finset (Fin n)) ×ˢ ({j} : Finset (Fin m)) := by
    ext p
    obtain ⟨a, b⟩ := p
    simp [Finset.mem_filter, Finset.mem_product, eq_comm]
  rw [hstep1, Finset.sum_filter_of_ne hdrop, hprod, Finset.sum_product]
  simp only [Finset.sum_singleton]
  rfl

-- ===========================================================================
-- Claim theorems
-- ===========================================================================

/-- C1: for every valid pair of input meshes (A, B) -- both covering the
sphere with pairwise disjoint faces -- and every source face i, the sum of
the areas of all OverlapFaces whose source provenance is i equals the area
of source face i itself; symmetrically for every target face j.  In this
exact model the equality is exact, hence within any tolerance. -/
theorem overlap_area_conservation {α : Type} [DecidableEq α] [Fintype α]
    {n m : ℕ} (w : α → ℚ) (A : Fin n → Finset α) (B : Fin m → Finset α)
    (hA : IsMeshCover A) (hB : IsMeshCover B) :
    (∀ i, ∑ p ∈ (overlapFaces A B).filter (fun p => p.1 = i),
        faceArea w (overlapPoly A B p) = faceArea w (A i)) ∧
    (∀ j, ∑ p ∈ (overlapFaces A B).filter (fun p => p.2 = j),
        faceArea w (overlapPoly A B p) = faceArea w (B j)) := by
  constructor
  · intro i
    rw [sum_overlap_src w A B i]
    exact sum_faceArea_inter w B hB (A i)
  · intro j
    rw [sum_overlap_tgt w A B j]
    have hcomm : ∀ i : Fin n,
        faceArea w (A i ∩ B j) = faceArea w (B j ∩ A i) := by
      intro i
      rw [Finset.inter_comm]
    rw [Finset.sum_congr rfl (fun i _ => hcomm i)]
    exact sum_faceArea_inter w A hA (B j)

/-- Witness for C1 at a concrete valid mesh pair over a two-point sphere:
one source face covering everything, two singleton target faces. -/
theorem overlap_area_conservation_witness :
    IsMeshCover sampleSrcMesh ∧ IsMeshCover sampleTgtMesh ∧
    ∑ p ∈ (overlapFaces sampleSrcMesh sampleTgtMesh).filter (fun p => p.1 = 0),
        faceArea sampleWeight (overlapPoly sampleSrcMesh sampleTgtMesh p)
      = faceArea sampleWeight (sampleSrcMesh 0) := by
  have hA : IsMeshCover sampleSrcMesh := ⟨by decide, by decide⟩
  have hB : IsMeshCover sampleTgtMesh := ⟨by decide, by decide⟩
  exact ⟨hA, hB,
    (overlap_area_conservation sampleWeight sampleSrcMesh sampleTgtMesh
      hA hB).1 0⟩

/-- C2 counterexample: the global 2-by-2 RLL mesh (wrap, south-pole and
north-pole flags all true, as computed for the default global extent)
contains the south polar face [0, 2, 1, 0]: the implicit closure from the
last entry back to the first relates node index 0 to itself, so not every
pair of consecutive node indices in the loop refers to distinct nodes. -/
theorem rll_face_loops_claim_false :
    ¬ faceLoopsWellFormed (rllFaces 2 2 true true true) := by
  unfold faceLoopsWellFormed
  decide

/-- C2 amended: every face loop built by the RLL generator has exactly 4
entries (hence at least 3); whenever there are at least two longitude
nodes, every interior face has all consecutive pairs, closure included,
distinct, and the polar faces have all non-closing consecutive pairs
distinct but repeat the pole node index as both first and last entry, so
their implicit closing pair refers to one and the same node. -/
theorem rll_face_loops_amended :
    (∀ nLongitudes nLatitudes : ℕ, ∀ wrap sp np : Bool,
      ∀ f ∈ rllFaces nLongitudes nLatitudes wrap sp np, f.length = 4) ∧
    (∀ nLN tIx nIx i : ℕ, tIx ≠ nIx → 2 ≤ nLN → i < nLN →
      consecPairsDistinct (interiorFace nLN tIx nIx i) = true) ∧
    (∀ nLN i : ℕ, 2 ≤ nLN → i < nLN →
      nonClosingDistinct (southPolarFace nLN i) = true ∧
      (southPolarFace nLN i).getD 0 0 = 0 ∧
      (southPolarFace nLN i).getD 3 0 = 0) ∧
    (∀ nLN tIx npIx i : ℕ, 2 ≤ nLN → i < nLN → tIx + nLN ≤ npIx →
      nonClosingDistinct (northPolarFace nLN tIx npIx i) = true ∧
      (northPolarFace nLN tIx npIx i).getD 0 0 = npIx ∧
      (northPolarFace nLN tIx npIx i).getD 3 0 = npIx) := by
  refine ⟨?_, ?_, ?_, ?_⟩
  · intro nLon nLat wrap sp np f hf
    simp only [rllFaces] at hf
    rcases List.mem_append.mp hf with h12 | hn
    · rcases List.mem_append.mp h12 with hs | hfi
      · simp only [southPolarFaces] at hs
        split at hs
        · rw [List.mem_map] at hs
          obtain ⟨i, _, rfl⟩ := hs
          rfl
        · simp at hs
      · simp only [interiorFaces, List.mem_flatten] at hfi
        obtain ⟨l, hl, hfl⟩ := hfi
        rw [List.mem_map] at hl
        obtain ⟨jx, _, rfl⟩ := hl
        rw [List.mem_map] at hfl
        obtain ⟨i, _, rfl⟩ := hfl
        rfl
    · simp only [northPolarFaces] at hn
      split at hn
      · rw [List.mem_map] at hn
        obtain ⟨i, _, rfl⟩ := hn
        rfl
      · simp at hn
  · intro nLN tIx nIx i hd hn hi
    have hm := succ_mod_ne nLN i hn hi
    rw [consecPairsDistinct, List.all_eq_true]
    intro k hk
    rw [List.mem_range] at hk
    norm_num [interiorFace] at hk ⊢
    interval_cases k <;>
      norm_num [List.getD_cons_succ, List.getD_cons_zero] <;> omega
  · intro nLN i hn hi
    have hm := succ_mod_ne nLN i hn hi
    refine ⟨?_, rfl, rfl⟩
    rw [nonClosingDistinct, List.all_eq_true]
    intro k hk
    rw [List.mem_range] at hk
    norm_num [southPolarFace] at hk ⊢
    interval_cases k <;>
      norm_num [List.getD_cons_succ, List.getD_cons_zero] <;> omega
  · intro nLN tIx npIx i hn hi hnp
    have hm := succ_mod_ne nLN i hn hi
    have hmod : (i + 1) % nLN < nLN := Nat.mod_lt _ (by omega)
    refine ⟨?_, rfl, rfl⟩
    rw [nonClosingDistinct, List.all_eq_true]
    intro k hk
    rw [List.mem_range] at hk
    norm_num [northPolarFace] at hk ⊢
    interval_cases k <;>
      norm_num [List.getD_cons_succ, List.getD_cons_zero] <;> omega

/-- Witness for C2 amended at concrete inputs: the south polar face of the
2-by-2 global mesh, an interior face, a south polar face and a north polar
face with two longitude nodes. -/
theorem rll_face_loops_amended_witness :
    (([0, 2, 1, 0] : List ℕ) ∈ rllFaces 2 2 true true true ∧
      ([0, 2, 1, 0] : List ℕ).length = 4) ∧
    ((0 : ℕ) ≠ 2 ∧ 2 ≤ 2 ∧ 0 < 2 ∧
      consecPairsDistinct (interiorFace 2 0 2 0) = true) ∧
    nonClosingDistinct (southPolarFace 2 0) = true ∧
    (1 + 2 ≤ 3 ∧ nonClosingDistinct (northPolarFace 2 1 3 0) = true) :=
  ⟨⟨by decide,
      rll_face_loops_amended.1 2 2 true true true [0, 2, 1, 0] (by decide)⟩,
    ⟨by decide, by decide, by decide,
      rll_face_loops_amended.2.1 2 0 2 0 (by decide) (by decide) (by decide)⟩,
    (rll_face_loops_amended.2.2.1 2 0 (by decide) (by decide)).1,
    ⟨by decide,
      (rll_face_loops_amended.2.2.2 2 1 3 0 (by decide) (by decide)
        (by decide)).1⟩⟩

/-- C3 counterexample: the ONLY_GREAT_CIRCLES macro is defined at
GenerateRLLMesh.cpp line 29 -- a compile-time toggle that excludes
constant-latitude edges -- and under it the latitude-parallel edge 1 of a
face emitted by the RLL generator does not carry the ConstantLatitude
type. -/
theorem rll_edge_type_claim_false :
    ONLY_GREAT_CIRCLES = true ∧
    rllFaceEdgeType ONLY_GREAT_CIRCLES 1 ≠ EdgeType.constantLatitude := by
  decide

/-- C3 amended: each edge carries an explicit run-time type field drawn
from the GreatCircle and ConstantLatitude variants, but the compile-time
toggle ONLY_GREAT_CIRCLES is defined and excludes constant-latitude edges:
every edge of every face the RLL generator emits, latitude-parallel edges 1
and 3 included, carries the default great-circle type; only with the toggle
removed would edges 1 and 3 carry the ConstantLatitude type. -/
theorem rll_edge_type_toggle :
    ONLY_GREAT_CIRCLES = true ∧
    (∀ k : Fin 4,
      rllFaceEdgeType ONLY_GREAT_CIRCLES k = EdgeType.greatCircle) ∧
    rllFaceEdgeType false 1 = EdgeType.constantLatitude ∧
    rllFaceEdgeType false 3 = EdgeType.constantLatitude ∧
    rllFaceEdgeType false 0 = defaultEdgeType ∧
    rllFaceEdgeType false 2 = defaultEdgeType := by decide

/-- C4: each of the three drivers exits with code 0 on success, a non-zero
code for a caught domain error (a raised Exception) and a different
non-zero code for an unexpected failure (any other thrown object); for the
overlap driver the code of the underlying routine is modelled from the
spec and forwarded as in lines 58-63 of its source. -/
theorem exit_codes_distinct :
    (generateRLLMeshExitCode RunOutcome.success = 0 ∧
      generateRLLMeshExitCode RunOutcome.domainError ≠ 0 ∧
      generateRLLMeshExitCode RunOutcome.unexpected ≠ 0 ∧
      generateRLLMeshExitCode RunOutcome.domainError
        ≠ generateRLLMeshExitCode RunOutcome.unexpected) ∧
    (generateTestDataExitCode RunOutcome.success = 0 ∧
      generateTestDataExitCode RunOutcome.domainError ≠ 0 ∧
      generateTestDataExitCode RunOutcome.unexpected ≠ 0 ∧
      generateTestDataExitCode RunOutcome.domainError
        ≠ generateTestDataExitCode RunOutcome.unexpected) ∧
    (generateOverlapMeshExeExitCode RunOutcome.success = 0 ∧
      generateOverlapMeshExeExitCode RunOutcome.domainError ≠ 0 ∧
      generateOverlapMeshExeExitCode RunOutcome.unexpected ≠ 0 ∧
      generateOverlapMeshExeExitCode RunOutcome.domainError
        ≠ generateOverlapMeshExeExitCode RunOutcome.unexpected) := by decide

/-- C5: every node the RLL generator stores is a unit vector in 3-space
within tolerance 1e-10: the squared magnitude of every interior node built
from (cos phi cos lambda, cos phi sin lambda, sin phi) and of the two pole
nodes differs from 1 by at most 1e-10 (in the real-number model the
difference is exactly 0). -/
theorem rll_nodes_unit_sphere :
    (∀ dPhi dLambda : ℝ,
      |nodeMagnitudeSq (rllInteriorNode dPhi dLambda) - 1| ≤ 1e-10) ∧
    |nodeMagnitudeSq southPoleNode - 1| ≤ 1e-10 ∧
    |nodeMagnitudeSq northPoleNode - 1| ≤ 1e-10 := by
  refine ⟨fun dPhi dLambda => ?_, ?_, ?_⟩
  · have h : nodeMagnitudeSq (rllInteriorNode dPhi dLambda) = 1 := by
      have hl := Real.sin_sq_add_cos_sq dLambda
      have hp := Real.sin_sq_add_cos_sq dPhi
      simp only [nodeMagnitudeSq, rllInteriorNode]
      nlinarith [hl, hp]
    rw [h, sub_self, abs_zero]
    norm_num
  · have h : nodeMagnitudeSq southPoleNode = 1 := by
      norm_num [nodeMagnitudeSq, southPoleNode]
    rw [h, sub_self, abs_zero]
    norm_num
  · have h : nodeMagnitudeSq northPoleNode = 1 := by
      norm_num [nodeMagnitudeSq, northPoleNode]
    rw [h, sub_self, abs_zero]
    norm_num

/-- C6: the --method option defaults to the string fuzzy and the method
validation accepts exactly the enumerated values fuzzy, exact and mixed;
every other string is a domain error rather than a method. -/
theorem overlap_method_enumerated :
    strMethodDefault = "fuzzy" ∧
    parseOverlapMethod strMethodDefault = Except.ok OverlapMethod.fuzzy ∧
    parseOverlapMethod ("exact") = Except.ok OverlapMethod.exact ∧
    parseOverlapMethod ("mixed") = Except.ok OverlapMethod.mixed ∧
    (∀ s : String, s ≠ "fuzzy" → s ≠ "exact" → s ≠ "mixed" →
      parseOverlapMethod s = Except.error methodErrorMsg) := by
  refine ⟨rfl, rfl, rfl, rfl, ?_⟩
  intro s h1 h2 h3
  unfold parseOverlapMethod
  rw [if_neg h1, if_neg h2, if_neg h3]

/-- Witness for C6 at the concrete out-of-enumeration string trapezoid. -/
theorem overlap_method_enumerated_witness :
    ("trapezoid" : String) ≠ "fuzzy" ∧ ("trapezoid" : String) ≠ "exact" ∧
    ("trapezoid" : String) ≠ "mixed" ∧
    parseOverlapMethod ("trapezoid") = Except.error methodErrorMsg :=
  ⟨by decide, by decide, by decide,
    overlap_method_enumerated.2.2.2.2 ("trapezoid") (by decide) (by decide)
      (by decide)⟩

/-- C7: swapping the roles of source mesh A and target mesh B yields the
same OverlapFaces as geometric sets, with only the source and target
provenance fields exchanged: the provenance pairs of the swapped run are
exactly the swapped provenance pairs of the original run, and each swapped
pair denotes the same intersection polygon. -/
theorem overlap_swap_invariance {α : Type} [DecidableEq α] [Fintype α]
    {n m : ℕ} (A : Fin n → Finset α) (B : Fin m → Finset α) :
    overlapFaces B A = (overlapFaces A B).image Prod.swap ∧
    (∀ p : Fin n × Fin m, overlapPoly B A p.swap = overlapPoly A B p) := by
  constructor
  · ext q
    simp only [overlapFaces, overlapPoly, Finset.mem_image, Finset.mem_filter,
      Finset.mem_univ, true_and]
    constructor
    · intro hq
      refine ⟨(q.2, q.1), ?_, rfl⟩
      rwa [Finset.inter_comm] at hq
    · rintro ⟨p, hp, rfl⟩
      rwa [Finset.inter_comm] at hp
  · intro p
    simp only [overlapPoly]
    rw [Finset.inter_comm]
    rfl

/-- C8: evaluation of the bounds-setting step of GenerateRLLMesh.cpp lines
284-288 at the default arguments (128 longitudes, 64 latitudes): the read
of the latitude-edge array at index dLonEdge.GetRows()-1 = 128 is NOT
within that array's length 65, so the step reads out of bounds. -/
theorem set_bounds_read_oob :
    setBoundsReadsInBounds 128 64 = false ∧
    setBoundsLatReadIndex 128 = 128 ∧ latEdgeRows 64 = 65 := by decide

/-- C9: the test-data generator accepts exactly the test indices 1, 2, 3
and 4, selecting the low-order harmonic, the high-frequency harmonic, the
stationary vortex and the constant function 1 respectively, and every other
index produces the fatal error whose message states the range as
[1,2,3]. -/
theorem test_index_selection :
    selectTestFunction 1 = Except.ok TestKind.y2b2 ∧
    selectTestFunction 2 = Except.ok TestKind.y16b32 ∧
    selectTestFunction 3 = Except.ok TestKind.vortex ∧
    selectTestFunction 4 = Except.ok TestKind.one ∧
    testIndexErrorMsg = "Test index out of range; expected [1,2,3]" ∧
    (∀ i : Int, i ≠ 1 → i ≠ 2 → i ≠ 3 → i ≠ 4 →
      selectTestFunction i = Except.error testIndexErrorMsg) := by
  refine ⟨rfl, rfl, rfl, rfl, rfl, ?_⟩
  intro i h1 h2 h3 h4
  unfold selectTestFunction
  rw [if_neg h1, if_neg h2, if_neg h3, if_neg h4]

/-- Witness for C9 at the concrete out-of-range index 7. -/
theorem test_index_selection_witness :
    (7 : Int) ≠ 1 ∧ (7 : Int) ≠ 2 ∧ (7 : Int) ≠ 3 ∧ (7 : Int) ≠ 4 ∧
    selectTestFunction 7 = Except.error testIndexErrorMsg :=
  ⟨by decide, by decide, by decide, by decide,
    test_index_selection.2.2.2.2.2 7 (by decide) (by decide) (by decide)
      (by decide)⟩

/-- C10: evaluating the stationary-vortex test function is total for every
(longitude, latitude) input: the angular velocity is 0 when dRho = 0 and
the guarded division dVt / dRho is performed only when dRho is non-zero, so
the evaluation always yields a value and no division by zero occurs. -/
theorem vortex_eval_total :
    (∀ dVt : ℝ, vortexOmega dVt 0 = some 0) ∧
    (∀ dLon dLat : ℝ, ∃ v, testFunctionVortex dLon dLat = some v) := by
  constructor
  · intro dVt
    simp [vortexOmega]
  · intro dLon dLat
    unfold testFunctionVortex
    by_cases h : (3.0 : ℝ) * Real.cos (rotatedSphereCoord 0.0 0.6 dLon dLat).2 = 0
    · simp [vortexOmega, h]
    · simp [vortexOmega, h, safeDiv]

end TempestRemap
